import Mathlib

/-!
Verification development for the multilingual persona-chatbot routing
pipeline (`chatbot_api/server.py`): language detection, ordered intent
matching, embedding-based semantic fallback and the router.

Modelling conventions:
* Python strings are Lean `String` / `List Char`; the fragments of
  `str.strip`, `str.lower`, `re` and `str.splitlines` that the program
  exercises are embedded explicitly below.
* The two external services (OpenAI embeddings and chat completions) are
  oracles passed as parameters; a failing service call is an
  `Except.error`.
* Floating point arithmetic of the source is idealised as real
  arithmetic (`ℝ`), as the specification's numeric semantics does.
* The module-level mutable cache `_sem_vectors` is explicit state
  (`SemState`) threaded through the semantic stage.
* A language code (`"az" | "en" | "ru" | "tr" | "pl"`, the values
  `detect_lang` can produce) is the enumeration `Lang`.
-/

/-- The five language codes the detector can return. -/
inductive Lang where
  | az : Lang
  | en : Lang
  | ru : Lang
  | tr : Lang
  | pl : Lang
deriving DecidableEq

/-- Characters `str.strip()` removes (Python `str.isspace`). -/
def pyIsSpace (c : Char) : Bool :=
  decide ((9 ≤ c.toNat ∧ c.toNat ≤ 13) ∨ (28 ≤ c.toNat ∧ c.toNat ≤ 32) ∨
    c.toNat = 0x85 ∨ c.toNat = 0xA0 ∨ c.toNat = 0x1680 ∨
    (0x2000 ≤ c.toNat ∧ c.toNat ≤ 0x200A) ∨ c.toNat = 0x2028 ∨
    c.toNat = 0x2029 ∨ c.toNat = 0x202F ∨ c.toNat = 0x205F ∨ c.toNat = 0x3000)

/-- Python `str.strip()`: drop leading and trailing whitespace. -/
def pyStrip (s : List Char) : List Char :=
  ((s.dropWhile pyIsSpace).reverse.dropWhile pyIsSpace).reverse

/-- One character of Python `str.lower()`, restricted to the alphabets the
program inspects (ASCII, the AZ/TR/PL diacritics of the source's regexes
and stopwords, and the Russian Cyrillic alphabet); `İ` lowercases to the
two-character sequence `i` + combining dot above, as in Python. -/
def pyLowerChar (c : Char) : List Char :=
  if c.toNat = 0x130 then [Char.ofNat 0x69, Char.ofNat 0x307]
  else if 65 ≤ c.toNat ∧ c.toNat ≤ 90 then [Char.ofNat (c.toNat + 32)]
  else if 0x410 ≤ c.toNat ∧ c.toNat ≤ 0x42F then [Char.ofNat (c.toNat + 32)]
  else if c.toNat = 0x401 then [Char.ofNat 0x451]
  else if c = 'Ə' then ['ə']
  else if c = 'Ğ' then ['ğ']
  else if c = 'Ö' then ['ö']
  else if c = 'Ç' then ['ç']
  else if c = 'Ş' then ['ş']
  else if c = 'Ü' then ['ü']
  else if c = 'Ą' then ['ą']
  else if c = 'Ć' then ['ć']
  else if c = 'Ę' then ['ę']
  else if c = 'Ł' then ['ł']
  else if c = 'Ń' then ['ń']
  else if c = 'Ó' then ['ó']
  else if c = 'Ś' then ['ś']
  else if c = 'Ź' then ['ź']
  else if c = 'Ż' then ['ż']
  else [c]

/-- Python `str.lower()` over the modelled alphabets. -/
def pyLower (s : List Char) : List Char :=
  s.flatMap pyLowerChar

/-- The character class `[А-Яа-яЁё]` of the detector's Russian check. -/
def isRuCh (c : Char) : Bool :=
  decide ((0x410 ≤ c.toNat ∧ c.toNat ≤ 0x44F) ∨ c.toNat = 0x401 ∨ c.toNat = 0x451)

/-- The character class `[əƏ]` of the detector's Azerbaijani check. -/
def isAzCh (c : Char) : Bool :=
  c = 'ə' ∨ c = 'Ə'

/-- The character class `[ıİğĞ]` of the detector's Turkish check. -/
def isTrCh (c : Char) : Bool :=
  c = 'ı' ∨ c = 'İ' ∨ c = 'ğ' ∨ c = 'Ğ'

/-- The character class `[ąĄćĆęĘłŁńŃóÓśŚźŹżŻ]` of the detector's Polish
check. -/
def isPlCh (c : Char) : Bool :=
  c = 'ą' ∨ c = 'Ą' ∨ c = 'ć' ∨ c = 'Ć' ∨ c = 'ę' ∨ c = 'Ę' ∨
  c = 'ł' ∨ c = 'Ł' ∨ c = 'ń' ∨ c = 'Ń' ∨ c = 'ó' ∨ c = 'Ó' ∨
  c = 'ś' ∨ c = 'Ś' ∨ c = 'ź' ∨ c = 'Ź' ∨ c = 'ż' ∨ c = 'Ż'

/-- The character class `[A-Za-z]` of the detector's final Latin check. -/
def isLatinCh (c : Char) : Bool :=
  decide ((65 ≤ c.toNat ∧ c.toNat ≤ 90) ∨ (97 ≤ c.toNat ∧ c.toNat ≤ 122))

/-- The token character class
`[a-zA-ZəğıöçşüİıĞğÖöÇçŞşĄąĆćĘęŁłŃńÓóŚśŹźŻż]` used by the detector's
`re.findall` tokenizer. -/
def isTokCh (c : Char) : Bool :=
  isLatinCh c ∨ c = 'ə' ∨ c = 'ğ' ∨ c = 'ı' ∨ c = 'ö' ∨ c = 'ç' ∨
  c = 'ş' ∨ c = 'ü' ∨ c = 'İ' ∨ c = 'Ğ' ∨ c = 'Ö' ∨ c = 'Ç' ∨ c = 'Ş' ∨
  c = 'Ą' ∨ c = 'ą' ∨ c = 'Ć' ∨ c = 'ć' ∨ c = 'Ę' ∨ c = 'ę' ∨
  c = 'Ł' ∨ c = 'ł' ∨ c = 'Ń' ∨ c = 'ń' ∨ c = 'Ó' ∨ c = 'ó' ∨
  c = 'Ś' ∨ c = 'ś' ∨ c = 'Ź' ∨ c = 'ź' ∨ c = 'Ż' ∨ c = 'ż'

/-- Model of `re.findall(r"[...]+", tl)`: maximal runs of token characters. -/
def tokenizeGo : List Char → List Char → List (List Char)
  | [], acc => if acc = [] then [] else [acc.reverse]
  | c :: rest, acc =>
    if isTokCh c then tokenizeGo rest (c :: acc)
    else if acc = [] then tokenizeGo rest []
    else acc.reverse :: tokenizeGo rest []

/-- Tokenizer of the detector's stopword stage. -/
def tokenize (s : List Char) : List (List Char) :=
  tokenizeGo s []

/-- The `AZ_STOPWORDS` from the source. -/
def AZ_STOPWORDS : List String :=
  ["salam", "salammm", "necesen", "necəsən", "sağol", "sagol", "nə",
   "necə", "niyə", "harda", "harada", "burda", "bura", "indi", "elə",
   "belə", "özünü", "haqqinda", "haqqında", "sən", "sen", "mən", "men",
   "varsan", "varsanmi", "varmı", "yaz", "de", "danış"]

/-- The `TR_STOPWORDS` from the source. -/
def TR_STOPWORDS : List String :=
  ["merhaba", "selam", "nasılsın", "iyiyim", "teşekkür", "ederim",
   "neden", "nasıl", "nerede", "burada", "şurada", "şimdi", "öyle",
   "böyle", "hakkında", "sen", "ben", "yaz", "söyle", "anlat", "mısın",
   "misin", "nedir", "kimdir"]

/-- The `PL_STOPWORDS` from the source (`"dzień dobry"` and `"o czym"` split
into separate words by `str.split`). -/
def PL_STOPWORDS : List String :=
  ["cześć", "siema", "dzień", "dobry", "jak", "dlaczego", "gdzie",
   "tutaj", "teraz", "proszę", "dziękuję", "o", "czym", "napisz",
   "powiedz", "kim", "co", "kiedy"]

/-- Membership of a token in a stopword set. -/
def inStopwords (tok : List Char) (set : List String) : Bool :=
  set.any (fun w => w.data = tok)

/-!  A small regular-expression engine sufficient for the patterns of the
source (literals, alternation, optional groups, character-class
repetition for `.*` `\s*` `\s+`, word boundaries `\b` and end anchor
`$`).  `reSearch` decides whether the pattern matches anywhere in the
text, which is all `re.search` is used for. -/

/-- Regular expression abstract syntax. -/
inductive RE where
  | fail : RE
  | eps : RE
  | chr : (Char → Bool) → RE
  | seq : RE → RE → RE
  | alt : RE → RE → RE
  | many : (Char → Bool) → RE
  | wb : RE
  | eos : RE

/-- Word characters for `\b` (Python `\w`, restricted to the modelled
alphabets: ASCII alphanumerics, underscore, the AZ/TR/PL letters and
Cyrillic). -/
def isWordCh (c : Char) : Bool :=
  isLatinCh c ∨ (48 ≤ c.toNat ∧ c.toNat ≤ 57) ∨ c = '_' ∨
  isTokCh c ∨ isAzCh c ∨ isRuCh c ∨ isPlCh c ∨ isTrCh c

/-- Is the boundary between `prev` and the head of `s` a `\b` position? -/
def atWb (prev : Option Char) (s : List Char) : Bool :=
  let l := match prev with | none => false | some c => isWordCh c
  let r := match s with | [] => false | c :: _ => isWordCh c
  l != r

/-- Fuelled continuation-passing matcher: `reM fuel r prev s k` is true
when `r` matches a prefix of `s` (with `prev` the character just before
`s`) and the continuation `k` accepts the remainder. -/
def reM : Nat → RE → Option Char → List Char → (Option Char → List Char → Bool) → Bool
  | 0, _, _, _, _ => false
  | _ + 1, .fail, _, _, _ => false
  | _ + 1, .eps, prev, s, k => k prev s
  | _ + 1, .chr p, _, s, k =>
    match s with
    | [] => false
    | c :: rest => p c && k (some c) rest
  | fuel + 1, .seq r1 r2, prev, s, k =>
    reM fuel r1 prev s (fun p2 s2 => reM fuel r2 p2 s2 k)
  | fuel + 1, .alt r1 r2, prev, s, k =>
    reM fuel r1 prev s k || reM fuel r2 prev s k
  | fuel + 1, .many p, prev, s, k =>
    k prev s ||
      match s with
      | [] => false
      | c :: rest => p c && reM fuel (.many p) (some c) rest k
  | _ + 1, .wb, prev, s, k => atWb prev s && k prev s
  | _ + 1, .eos, prev, s, k =>
    (match s with
     | [] => true
     | [c] => c = Char.ofNat 10
     | _ => false) && k prev s

/-- Try to match `r` starting at every position of `s`, tracking the
preceding character for `\b`. -/
def reSearchGo (r : RE) (fuel : Nat) : Option Char → List Char → Bool
  | prev, s =>
    reM fuel r prev s (fun _ _ => true) ||
      match s with
      | [] => false
      | c :: rest => reSearchGo r fuel (some c) rest

/-- Decide `re.search(r, s) is not None`. -/
def reSearch (r : RE) (s : List Char) : Bool :=
  reSearchGo r (4 * s.length + 600) none s

/-- A literal character. -/
def reChr (c : Char) : RE :=
  .chr (fun x => x = c)

/-- A literal string. -/
def reLit (s : String) : RE :=
  (s.data.map reChr).foldr .seq .eps

/-- Pattern `x|y|...` -/
def reAlts : List RE → RE
  | [] => .fail
  | [r] => r
  | r :: rest => .alt r (reAlts rest)

/-- Pattern `(r)?` (greedy order is irrelevant for search existence). -/
def reOpt (r : RE) : RE :=
  .alt r .eps

/-- Pattern `\s` of the `re` module. -/
def reWsCls : Char → Bool :=
  pyIsSpace

/-- Pattern `\s*` -/
def reWsStar : RE :=
  .many reWsCls

/-- Pattern `\s+` -/
def reWsPlus : RE :=
  .seq (.chr reWsCls) (.many reWsCls)

/-- Pattern `.*` (any character but newline). -/
def reDotStar : RE :=
  .many (fun c => c ≠ Char.ofNat 10)

/-- Chain several regexes in sequence. -/
def reSeqs : List RE → RE
  | [] => .eps
  | [r] => r
  | r :: rest => .seq r (reSeqs rest)

/-- The detector's English marker pattern
`\b(what|who|why|how|where|when|which|can|do|tell|about|please)\b`. -/
def enMarkerRE : RE :=
  reSeqs [.wb,
    reAlts [reLit "what", reLit "who", reLit "why", reLit "how",
      reLit "where", reLit "when", reLit "which", reLit "can",
      reLit "do", reLit "tell", reLit "about", reLit "please"],
    .wb]

/-- Function `detect_lang` from the source: Cyrillic, then unique AZ/TR/PL
letters, then stopword sets, then the Latin/English default. -/
def detect_lang (text : String) : Lang :=
  let t := pyStrip text.data
  let tl := pyLower t
  if t.any isRuCh then .ru
  else if t.any isAzCh then .az
  else if t.any isTrCh then .tr
  else if t.any isPlCh then .pl
  else
    let toks := tokenize tl
    if toks.any (fun tok => inStopwords tok AZ_STOPWORDS) then .az
    else if toks.any (fun tok => inStopwords tok TR_STOPWORDS) then .tr
    else if toks.any (fun tok => inStopwords tok PL_STOPWORDS) then .pl
    else if t.any isLatinCh then
      if reSearch enMarkerRE tl then .en
      else .en
    else .en

/-- Variant `detect_lang` with the final English interrogative-word scan removed:
the last Latin branch returns `en` without consulting `enMarkerRE`. -/
def detect_lang_noscan (text : String) : Lang :=
  let t := pyStrip text.data
  let tl := pyLower t
  if t.any isRuCh then .ru
  else if t.any isAzCh then .az
  else if t.any isTrCh then .tr
  else if t.any isPlCh then .pl
  else
    let toks := tokenize tl
    if toks.any (fun tok => inStopwords tok AZ_STOPWORDS) then .az
    else if toks.any (fun tok => inStopwords tok TR_STOPWORDS) then .tr
    else if toks.any (fun tok => inStopwords tok PL_STOPWORDS) then .pl
    else if t.any isLatinCh then .en
    else .en

/-- A character of the Unicode Cyrillic block (U+0400–U+04FF); this is
the specification's notion of "Cyrillic character". -/
def isCyrillicChar (c : Char) : Bool :=
  decide (0x400 ≤ c.toNat ∧ c.toNat ≤ 0x4FF)

/-! ## Persona facts (`ELVIN`) — the fields the routed responses interpolate -/

/-- The `ELVIN["family"]`. -/
structure Family where
  mother : String
  father : String
  brother : String
  sister : String

/-- The persona fact fields that the intent and semantic responses read
(`ELVIN` in the source; fields not interpolated anywhere are omitted
from the model's record but kept in the system prompt text). -/
structure Persona where
  full_name : String
  birthday : String
  age : String
  born_city : String
  current_city : String
  housing : String
  spoken_langs : String
  family : Family
  love_about : String
  email : String

/-- The `ELVIN` record. -/
def ELVIN : Persona :=
  { full_name := "Elvin Babanlı"
    birthday := "2002-05-28"
    age := "23"
    born_city := "Bakı, Azərbaycan"
    current_city := "Varşava, Polşa"
    housing := "Mərkəzə yaxın iki mərtəbəli kirayə evdə yaşayıram."
    spoken_langs := "AZ, TR (sərbəst); EN, RU (orta); PL (basic)"
    family :=
      { mother := "Mehriban Qədimova"
        father := "Natiq Babanlı"
        brother := "Farid Babanlı"
        sister := "Fidan Babanlı" }
    love_about :=
      "İlk ciddi hisslərim Banuya olub. Onu həqiqətən çox sevdim; " ++
      "məndə həm zəiflik, həm də güc oyadan bir hiss idi. Hörmətlə yanaşdım, " ++
      "O məndə iz qoydu və məni həyatla daha möhkəm bağladı." ++
      "Hər zaman onu sevməyə davam edəcəm."
    email := "elvinbabanli0@gmail.com" }

/-- The `STYLE_GUIDE` from the source. -/
def STYLE_GUIDE : String :=
  "Birinci şəxsdə danış (Mən ...). Ton səmimi, təbii, sakit olsun; lazım olanda yüngül yumor. " ++
  "Cavab 1–3 cümləlik qısa paraqraf olsun, bullet istifadə etmə. " ++
  "Bilmədiyin faktı uydurma; \x27Dəqiq bilmirəm\x27 de."

/-- Function `style_hint_for_lang` from the source. -/
def style_hint_for_lang (lang : Lang) : String :=
  if lang = .en then "Answer in English in a natural, first-person voice. 1–3 sentences. No bullet points."
  else if lang = .ru then "Ответь по-русски естественно, от первого лица. 1–3 предложения. Без списков."
  else if lang = .tr then "Türkçe, doğal ve birinci tekil şahıs konuş. 1–3 cümle. Listeleme yok."
  else if lang = .pl then "Odpowiadaj po polsku, naturalnie w pierwszej osobie. 1–3 zdania. Bez wypunktowań."
  else "Cavabı Azərbaycan dilində, təbii və birinci şəxsdə ver. 1–3 cümlə. Siyahı istifadə etmə."

/-! ## Intent matcher -/

/-- The fourteen intent labels, in the significant source order. -/
inductive IntentName where
  | programming_langs | spoken_langs | where_live_house | where_live
  | born_where | age | who_are_you | why_hire | family | love_banu
  | projects | email_contact | today_date | time_now
deriving DecidableEq

/-- ASCII apostrophe (appears in the `today_date` pattern). -/
def apos : Char :=
  Char.ofNat 39

/-- Pattern `\b(proqram(lama)?\s*dilləri|programming\s*languages|coding\s*languages|tech\s*stack|stack)\b` -/
def reProgramming : RE :=
  reSeqs [.wb,
    reAlts [reSeqs [reLit "proqram", reOpt (reLit "lama"), reWsStar, reLit "dilləri"],
      reSeqs [reLit "programming", reWsStar, reLit "languages"],
      reSeqs [reLit "coding", reWsStar, reLit "languages"],
      reSeqs [reLit "tech", reWsStar, reLit "stack"],
      reLit "stack"],
    .wb]

/-- Pattern `\b(dil bilikləri|hansı dill(ə|)rd[əə]\s*danışırsan|languages (you )?speak|hans(ı|i) dill(ə|)r)\b` -/
def reSpokenLangs : RE :=
  reSeqs [.wb,
    reAlts [reLit "dil bilikləri",
      reSeqs [reLit "hansı dill", reAlts [reLit "ə", .eps], reLit "rd",
        reChr 'ə', reWsStar, reLit "danışırsan"],
      reSeqs [reLit "languages ", reOpt (reLit "you "), reLit "speak"],
      reSeqs [reLit "hans", reAlts [reChr 'ı', reChr 'i'], reLit " dill",
        reAlts [reLit "ə", .eps], reLit "r"]],
    .wb]

/-- Pattern `\b(necə|nə cür)\s+bir\s+ev(d|)ə\b|\bev(in)? nec(ə|ədir)\b` -/
def reWhereLiveHouse : RE :=
  reAlts [reSeqs [.wb, reAlts [reLit "necə", reLit "nə cür"], reWsPlus,
      reLit "bir", reWsPlus, reLit "ev", reAlts [reLit "d", .eps],
      reLit "ə", .wb],
    reSeqs [.wb, reLit "ev", reOpt (reLit "in"), reLit " nec",
      reAlts [reLit "ə", reLit "ədir"], .wb]]

/-- Pattern `\bharada\b.*\byaşay(ırsan|ıram)\b|\byaşayış yeri(n)?\b|\biqamət\b|where do you live\b` -/
def reWhereLive : RE :=
  reAlts [reSeqs [.wb, reLit "harada", .wb, reDotStar, .wb, reLit "yaşay",
      reAlts [reLit "ırsan", reLit "ıram"], .wb],
    reSeqs [.wb, reLit "yaşayış yeri", reOpt (reLit "n"), .wb],
    reSeqs [.wb, reLit "iqamət", .wb],
    reSeqs [reLit "where do you live", .wb]]

/-- Pattern `\bharada\b.*\b(doğul(ub|musan|dun))\b|\bdoğum yeri\b|\bdoğulduğun (yer|şəhər)\b|born (in|where)\b` -/
def reBornWhere : RE :=
  reAlts [reSeqs [.wb, reLit "harada", .wb, reDotStar, .wb, reLit "doğul",
      reAlts [reLit "ub", reLit "musan", reLit "dun"], .wb],
    reSeqs [.wb, reLit "doğum yeri", .wb],
    reSeqs [.wb, reLit "doğulduğun ", reAlts [reLit "yer", reLit "şəhər"], .wb],
    reSeqs [reLit "born ", reAlts [reLit "in", reLit "where"], .wb]]

/-- Pattern `\bneçə\s+yaş(ın|ı)?\b|\byaş(ın|ı)?\s*neçə\b|\byaş(ın|ı)?\b\??$|how old are you\b` -/
def reAge : RE :=
  reAlts [reSeqs [.wb, reLit "neçə", reWsPlus, reLit "yaş",
      reOpt (reAlts [reLit "ın", reLit "ı"]), .wb],
    reSeqs [.wb, reLit "yaş", reOpt (reAlts [reLit "ın", reLit "ı"]),
      reWsStar, reLit "neçə", .wb],
    reSeqs [.wb, reLit "yaş", reOpt (reAlts [reLit "ın", reLit "ı"]), .wb,
      reOpt (reChr '?'), .eos],
    reSeqs [reLit "how old are you", .wb]]

/-- Pattern `\bsən kimsən\b|\bözünü tanıt\b|who are you|introduce yourself|about you` -/
def reWhoAreYou : RE :=
  reAlts [reSeqs [.wb, reLit "sən kimsən", .wb],
    reSeqs [.wb, reLit "özünü tanıt", .wb],
    reLit "who are you", reLit "introduce yourself", reLit "about you"]

/-- Pattern `(niyə|nəyə görə).*(işə al|hire you|təklif|qəbul)|why should (we|i) hire you` -/
def reWhyHire : RE :=
  reAlts [reSeqs [reAlts [reLit "niyə", reLit "nəyə görə"], reDotStar,
      reAlts [reLit "işə al", reLit "hire you", reLit "təklif", reLit "qəbul"]],
    reSeqs [reLit "why should ", reAlts [reLit "we", reLit "i"], reLit " hire you"]]

/-- Pattern `\b(ailə|family)\b|\batan(ın)? adı\b|\banan(ın)? adı\b|\bqardaş\b|\bbacı\b` -/
def reFamily : RE :=
  reAlts [reSeqs [.wb, reAlts [reLit "ailə", reLit "family"], .wb],
    reSeqs [.wb, reLit "atan", reOpt (reLit "ın"), reLit " adı", .wb],
    reSeqs [.wb, reLit "anan", reOpt (reLit "ın"), reLit " adı", .wb],
    reSeqs [.wb, reLit "qardaş", .wb],
    reSeqs [.wb, reLit "bacı", .wb]]

/-- Pattern `\b(banu|sevg(il|)i|girlfriend|qız dost(un|)|love life)\b` -/
def reLoveBanu : RE :=
  reSeqs [.wb,
    reAlts [reLit "banu",
      reSeqs [reLit "sevg", reAlts [reLit "il", .eps], reLit "i"],
      reLit "girlfriend",
      reSeqs [reLit "qız dost", reAlts [reLit "un", .eps]],
      reLit "love life"],
    .wb]

/-- Pattern `\b(layih(ə|)lər|projects|portfolio|nələr etmisən|nə üzərində işləmisən)\b` -/
def reProjects : RE :=
  reSeqs [.wb,
    reAlts [reSeqs [reLit "layih", reAlts [reLit "ə", .eps], reLit "lər"],
      reLit "projects", reLit "portfolio", reLit "nələr etmisən",
      reLit "nə üzərində işləmisən"],
    .wb]

/-- Pattern `\b(email|e-poçt|contact|əlaqə)\b` -/
def reEmailContact : RE :=
  reSeqs [.wb,
    reAlts [reLit "email", reLit "e-poçt", reLit "contact", reLit "əlaqə"],
    .wb]

/-- Pattern `\b(bu gün ayın neçəsidir|bugün tarih|what(?:')?s the date|what day is it)\b` -/
def reTodayDate : RE :=
  reSeqs [.wb,
    reAlts [reLit "bu gün ayın neçəsidir", reLit "bugün tarih",
      reSeqs [reLit "what", reOpt (reChr apos), reLit "s the date"],
      reLit "what day is it"],
    .wb]

/-- Pattern `\b(indi saat neçədir|current time|what time is it)\b` -/
def reTimeNow : RE :=
  reSeqs [.wb,
    reAlts [reLit "indi saat neçədir", reLit "current time", reLit "what time is it"],
    .wb]

/-- The `INTENTS`: the ordered (label, pattern) list. -/
def INTENTS : List (IntentName × RE) :=
  [(.programming_langs, reProgramming),
   (.spoken_langs, reSpokenLangs),
   (.where_live_house, reWhereLiveHouse),
   (.where_live, reWhereLive),
   (.born_where, reBornWhere),
   (.age, reAge),
   (.who_are_you, reWhoAreYou),
   (.why_hire, reWhyHire),
   (.family, reFamily),
   (.love_banu, reLoveBanu),
   (.projects, reProjects),
   (.email_contact, reEmailContact),
   (.today_date, reTodayDate),
   (.time_now, reTimeNow)]

/-- The first intent whose pattern matches the normalized text, if any
(the `for name, pattern in INTENTS` loop head). -/
def firstIntentName (t : List Char) : Option IntentName :=
  (INTENTS.find? (fun np => reSearch np.2 t)).map (fun np => np.1)

/-! ## Canned responses -/

/-- The dictionary literal `{"az":az,"en":en,"ru":ru,"tr":tr,"pl":pl}`
of a response set, as an association list keyed by language code. -/
def responseDict (az en ru tr pl : String) : List (Lang × String) :=
  [(.az, az), (.en, en), (.ru, ru), (.tr, tr), (.pl, pl)]

/-- Python dictionary lookup `d[lang]`; `none` models a `KeyError`. -/
def pyDictGet (d : List (Lang × String)) (lang : Lang) : Option String :=
  (d.find? (fun kv => kv.1 = lang)).map (fun kv => kv.2)

/-- The wall clock read by the date/time intents (`datetime.now(TZ)` with
`TZ = Europe/Warsaw`), passed explicitly. -/
structure Now where
  year : Nat
  month : Nat
  day : Nat
  hour : Nat
  minute : Nat

/-- Format `%B` of `strftime` under the default C locale: the English month
name. -/
def monthNameB (m : Nat) : String :=
  (["January", "February", "March", "April", "May", "June", "July",
    "August", "September", "October", "November", "December"]).getD (m - 1) ""

/-- Zero-padded two-digit field (`%d`, `%m`, `%H`, `%M`). -/
def fmt2 (n : Nat) : String :=
  if n < 10 then "0" ++ toString n else toString n

/-- Format `%Y`. -/
def fmtY (n : Nat) : String :=
  toString n

/-- The `today_date` branch: per-language `strftime` formats. -/
def fmtTodayDate (now : Now) (lang : Lang) : String :=
  if lang = .en then "Today is " ++ monthNameB now.month ++ " " ++ fmt2 now.day ++ ", " ++ fmtY now.year ++ "."
  else if lang = .ru then "Сегодня " ++ fmt2 now.day ++ " " ++ monthNameB now.month ++ " " ++ fmtY now.year ++ " г."
  else if lang = .tr then "Bugün " ++ fmt2 now.day ++ " " ++ monthNameB now.month ++ " " ++ fmtY now.year ++ "."
  else if lang = .pl then "Dziś jest " ++ fmt2 now.day ++ " " ++ monthNameB now.month ++ " " ++ fmtY now.year ++ "."
  else "Bu gün " ++ fmt2 now.day ++ "." ++ fmt2 now.month ++ "." ++ fmtY now.year ++ "-dir."

/-- The `time_now` branch: per-language `strftime` formats. -/
def fmtTimeNow (now : Now) (lang : Lang) : String :=
  if lang = .en then "Current time: " ++ fmt2 now.hour ++ ":" ++ fmt2 now.minute ++ " (Europe/Warsaw)."
  else if lang = .ru then "Текущее время: " ++ fmt2 now.hour ++ ":" ++ fmt2 now.minute ++ " (Европа/Варшава)."
  else if lang = .tr then "Şu an saat: " ++ fmt2 now.hour ++ ":" ++ fmt2 now.minute ++ " (Europe/Warsaw)."
  else if lang = .pl then "Aktualna godzina: " ++ fmt2 now.hour ++ ":" ++ fmt2 now.minute ++ " (Europe/Warsaw)."
  else "Hazırki saat: " ++ fmt2 now.hour ++ ":" ++ fmt2 now.minute ++ " (Europe/Warsaw)."

/-- The response of a matched intent for a detected language: the body of
each `if name == ...` branch of `route_intent`.  The twelve static
intents look their string up in the five-language response dictionary;
the two date/time intents format the current wall clock.  `none` models
a `KeyError` on the dictionary lookup. -/
def renderIntent (name : IntentName) (now : Now) (lang : Lang) : Option String :=
  match name with
  | .programming_langs =>
    pyDictGet (responseDict
      "Əsasən Python (FastAPI, Django, Flask) və MongoDB ilə işləyirəm; həm də JavaScript, React və Electron təcrübəm var. TensorFlow və OpenCV ilə layihələr etmişəm."
      "Mainly Python (FastAPI, Django, Flask) and MongoDB; I also work with JavaScript, React, and Electron. I’ve done projects with TensorFlow and OpenCV."
      "В основном работаю с Python (FastAPI, Django, Flask) и MongoDB; также использую JavaScript, React и Electron. Делал проекты с TensorFlow и OpenCV."
      "Ağırlıklı olarak Python (FastAPI, Django, Flask) ve MongoDB ile çalışıyorum; ayrıca JavaScript, React ve Electron deneyimim var. TensorFlow ve OpenCV projeleri yaptım."
      "Głównie pracuję z Pythonem (FastAPI, Django, Flask) i MongoDB; używam też JavaScriptu, Reacta i Electrona. Robiłem projekty z TensorFlow i OpenCV.") lang
  | .spoken_langs =>
    pyDictGet (responseDict
      "Azərbaycanca və türkcə sərbəst danışıram; ingilis və rus orta səviyyədədir; bir az da polyakca bilirəm."
      "I speak Azerbaijani and Turkish fluently; English and Russian at an intermediate level; a bit of Polish."
      "Свободно говорю на азербайджанском и турецком; английский и русский — средний уровень; немного польский."
      "Azerbaycanca ve Türkçeyi akıcı konuşurum; İngilizce ve Rusçam orta seviyede; biraz da Lehçe biliyorum."
      "Biegle mówię po azersku i turecku; angielski i rosyjski mam na poziomie średnim; trochę po polsku.") lang
  | .where_live_house =>
    pyDictGet (responseDict
      "İki mərtəbəli kirayə evdə yaşayıram; mərkəzə yaxındır və rahatdır."
      "I live in a two-story rented house near the city center; it’s comfortable."
      "Живу в двухэтажном арендованном доме недалеко от центра; мне удобно."
      "Merkeze yakın, iki katlı kiralık bir evde yaşıyorum; rahat."
      "Mieszkam w dwupiętrowym wynajmowanym domu blisko centrum; jest wygodnie.") lang
  | .where_live =>
    pyDictGet (responseDict
      ("Varşavada yaşayıram, " ++ ELVIN.housing)
      ("I live in Warsaw. " ++ ELVIN.housing)
      ("Я живу в Варшаве. " ++ ELVIN.housing)
      ("Varşova’da yaşıyorum. " ++ ELVIN.housing)
      ("Mieszkam w Warszawie. " ++ ELVIN.housing)) lang
  | .born_where =>
    pyDictGet (responseDict
      (ELVIN.born_city ++ "-da doğulmuşam.")
      ("I was born in " ++ ELVIN.born_city ++ ".")
      ("Я родился в " ++ ELVIN.born_city ++ ".")
      (ELVIN.born_city ++ "-da doğdum.")
      ("Urodziłem się w " ++ ELVIN.born_city ++ ".")) lang
  | .age =>
    pyDictGet (responseDict
      (ELVIN.age ++ " yaşım var, doğum tarixim " ++ ELVIN.birthday ++ "-dir.")
      ("I’m " ++ ELVIN.age ++ " years old; my birthday is " ++ ELVIN.birthday ++ ".")
      ("Мне " ++ ELVIN.age ++ " лет; день рождения " ++ ELVIN.birthday ++ ".")
      (ELVIN.age ++ " yaşındayım; doğum günüm " ++ ELVIN.birthday ++ ".")
      ("Mam " ++ ELVIN.age ++ " lat; urodziny mam " ++ ELVIN.birthday ++ ".")) lang
  | .who_are_you =>
    pyDictGet (responseDict
      "Mən Elvinəm. Computer Engineering oxuyuram və real problemləri praktik həllərə çevirirəm; sabit nəticəyə fokuslanıram."
      "I’m Elvin. I study Computer Engineering and like turning real problems into practical solutions; I stay focused on stable results."
      "Я Эльвин. Учусь на Computer Engineering и люблю превращать реальные задачи в практические решения; нацелен на стабильный результат."
      "Ben Elvin’im. Computer Engineering okuyorum; gerçek problemleri pratik çözümlere çevirmeyi seviyorum ve stabil sonuca odaklıyım."
      "Jestem Elvin. Studiuję Computer Engineering; lubię zamieniać realne problemy w praktyczne rozwiązania i skupiam się na stabilnych efektach.") lang
  | .why_hire =>
    pyDictGet (responseDict
      "Məni işə götürsəniz, işi sistemli apararam və yarımçıq qoymaram. FastAPI/Django/Flask, REST və MongoDB ilə real təcrübəm var, komandaya tez uyğunlaşıram."
      "If you hire me, I’ll work systematically and won’t leave things half-done. I have real experience with FastAPI/Django/Flask, REST, and MongoDB, and I adapt quickly."
      "Если вы возьмёте меня, я буду работать системно и не оставлю задачи незаконченными. У меня реальный опыт с FastAPI/Django/Flask, REST и MongoDB; быстро адаптируюсь."
      "Beni işe alırsanız sistemli çalışırım ve işi yarım bırakmam. FastAPI/Django/Flask, REST ve MongoDB’de gerçek tecrübem var; hızlı uyum sağlarım."
      "Jeśli mnie zatrudnisz, będę pracował systematycznie i nie zostawię rzeczy niedokończonych. Mam realne doświadczenie z FastAPI/Django/Flask, REST i MongoDB; szybko się adaptuję.") lang
  | .family =>
    pyDictGet (responseDict
      ("Ailəm beş nəfərdir: qardaşım " ++ ELVIN.family.brother ++ ", bacım " ++ ELVIN.family.sister ++ ", anam " ++ ELVIN.family.mother ++ " və atam " ++ ELVIN.family.father ++ ".")
      ("My family has five members: my brother " ++ ELVIN.family.brother ++ ", my sister " ++ ELVIN.family.sister ++ ", my mother " ++ ELVIN.family.mother ++ ", and my father " ++ ELVIN.family.father ++ ".")
      ("В семье нас пятеро: брат " ++ ELVIN.family.brother ++ ", сестра " ++ ELVIN.family.sister ++ ", мама " ++ ELVIN.family.mother ++ " и папа " ++ ELVIN.family.father ++ ".")
      ("Ailem beş kişidir: kardeşim " ++ ELVIN.family.brother ++ ", kız kardeşim " ++ ELVIN.family.sister ++ ", annem " ++ ELVIN.family.mother ++ " ve babam " ++ ELVIN.family.father ++ ".")
      ("W rodzinie jest nas pięcioro: brat " ++ ELVIN.family.brother ++ ", siostra " ++ ELVIN.family.sister ++ ", mama " ++ ELVIN.family.mother ++ " i tata " ++ ELVIN.family.father ++ ".")) lang
  | .love_banu =>
    pyDictGet (responseDict
      ELVIN.love_about
      ("My first deep feelings were for Banu. I truly loved her — it made me softer and stronger at the same time. " ++
       "I treated her with respect and wrote letters. Even if it wasn’t mutual, it left a mark and tied me to life more firmly.")
      ("Мои первые серьёзные чувства были к Банӯ. Я её действительно любил — это делало меня одновременно мягче и сильнее. " ++
       "Относился с уважением, писал письма. Даже если это не стало взаимным, это оставило след и сильнее связало меня с жизнью.")
      "İlk derin duygularım Banu’yaydı. Ona gerçekten saygıyla yaklaştım, mektuplar yazdım; karşılık olmasa bile bende iz bıraktı ve hayata daha sıkı bağladı."
      "Moje pierwsze głębokie uczucia były do Banu. Traktowałem ją z szacunkiem i pisałem listy; nawet jeśli nie było to odwzajemnione, zostawiło ślad i mocniej związało mnie z życiem.") lang
  | .projects =>
    pyDictGet (responseDict
      ("Əsas layihələrim: " ++ "KFC backend, AI Exam Passer (ExamEyePro), Cashly (web banking), MoodSense, MirrorMe (prototip), Z13 (Zodiac) analizi" ++ ".")
      ("My main projects: " ++ "KFC backend, AI Exam Passer (ExamEyePro), Cashly (web banking), MoodSense, MirrorMe (prototype), Z13 (Zodiac) analysis" ++ ".")
      ("Мои основные проекты: " ++ "KFC backend, AI Exam Passer (ExamEyePro), Cashly (web banking), MoodSense, MirrorMe (прототип), Z13 (Zodiac) анализ" ++ ".")
      ("Ana projelerim: " ++ "KFC backend, AI Exam Passer (ExamEyePro), Cashly (web banking), MoodSense, MirrorMe (prototip), Z13 (Zodiac) analizi" ++ ".")
      ("Moje główne projekty: " ++ "KFC backend, AI Exam Passer (ExamEyePro), Cashly (web banking), MoodSense, MirrorMe (prototyp), analiza Z13 (Zodiac)" ++ ".")) lang
  | .email_contact =>
    pyDictGet (responseDict
      ("Əlaqə üçün: " ++ ELVIN.email)
      ("You can reach me at: " ++ ELVIN.email)
      ("Для связи: " ++ ELVIN.email)
      ("İletişim: " ++ ELVIN.email)
      ("Kontakt: " ++ ELVIN.email)) lang
  | .today_date => some (fmtTodayDate now lang)
  | .time_now => some (fmtTimeNow now lang)

/-- Function `route_intent` from the source: normalize (`strip` + `lower`), test
the patterns in order, render the first match for the detected language.
`Except.ok none` is Python's `return None` (no rule matched);
`Except.error ()` models an uncaught `KeyError` from a response
dictionary missing the language. -/
def route_intent (now : Now) (q : String) (lang : Lang) : Except Unit (Option String) :=
  let t := pyLower (pyStrip q.data)
  match firstIntentName t with
  | none => Except.ok none
  | some name =>
    match renderIntent name now lang with
    | some s => Except.ok (some s)
    | none => Except.error ()

/-! ## Semantic fallback -/

/-- One `SEMANTIC_QA` tuple
`(question_en, answer_en, answer_az, answer_ru, answer_tr, answer_pl)`. -/
structure SemEntry where
  q_en : String
  a_en : String
  a_az : String
  a_ru : String
  a_tr : String
  a_pl : String

/-- The `SEMANTIC_QA` from the source. -/
def SEMANTIC_QA : List SemEntry :=
  [{ q_en := "Where do you live?"
     a_en := "I live in Warsaw. " ++ ELVIN.housing
     a_az := "Varşavada yaşayıram, " ++ ELVIN.housing
     a_ru := "Я живу в Варшаве. " ++ ELVIN.housing
     a_tr := "Varşova’da yaşıyorum. " ++ ELVIN.housing
     a_pl := "Mieszkam w Warszawie. " ++ ELVIN.housing },
   { q_en := "Which city were you born in?"
     a_en := "I was born in " ++ ELVIN.born_city ++ "."
     a_az := ELVIN.born_city ++ "-da doğulmuşam."
     a_ru := "Я родился в " ++ ELVIN.born_city ++ "."
     a_tr := ELVIN.born_city ++ "-da doğdum."
     a_pl := "Urodziłem się w " ++ ELVIN.born_city ++ "." },
   { q_en := "How old are you?"
     a_en := "I’m " ++ ELVIN.age ++ " years old; my birthday is " ++ ELVIN.birthday ++ "."
     a_az := ELVIN.age ++ " yaşım var, doğum tarixim " ++ ELVIN.birthday ++ "-dir."
     a_ru := "Мне " ++ ELVIN.age ++ " лет; день рождения " ++ ELVIN.birthday ++ "."
     a_tr := ELVIN.age ++ " yaşındayım; doğum günüm " ++ ELVIN.birthday ++ "."
     a_pl := "Mam " ++ ELVIN.age ++ " lat; urodziny mam " ++ ELVIN.birthday ++ "." },
   { q_en := "Which programming languages do you use?"
     a_en := "Mainly Python (FastAPI, Django, Flask) and MongoDB; also JavaScript, React, Electron. I’ve done projects with TensorFlow and OpenCV."
     a_az := "Əsasən Python (FastAPI, Django, Flask) və MongoDB; həm də JavaScript, React, Electron. TensorFlow və OpenCV ilə layihələr etmişəm."
     a_ru := "В основном Python (FastAPI, Django, Flask) и MongoDB; также JavaScript, React, Electron. Делал проекты с TensorFlow и OpenCV."
     a_tr := "Ağırlıklı Python (FastAPI, Django, Flask) ve MongoDB; ayrıca JavaScript, React, Electron. TensorFlow ve OpenCV projeleri yaptım."
     a_pl := "Głównie Python (FastAPI, Django, Flask) i MongoDB; także JavaScript, React, Electron. Realizowałem projekty z TensorFlow i OpenCV." },
   { q_en := "Tell me about Banu."
     a_en := "My first deep feelings were for Banu; I respected her and wrote letters. Even if it wasn’t mutual, it left a mark and made me feel more connected to life."
     a_az := ELVIN.love_about
     a_ru := "Мои первые глубокие чувства были к Банӯ; относился с уважением, писал письма. Даже если это не стало взаимным, это оставило след и сильнее связало меня с жизнью."
     a_tr := "İlk derin duygularım Banu’yaydı; saygıyla yaklaştım ve mektuplar yazdım. Karşılık olmasa bile bende iz bıraktı ve hayata daha bağlı hissettirdi."
     a_pl := "Moje pierwsze głębokie uczucia były do Banu; traktowałem ją z szacunkiem i pisałem listy. Nawet jeśli to nie było odwzajemnione, zostawiło ślad." },
   { q_en := "Who are you?"
     a_en := "I’m Elvin — a Computer Engineering student who prefers systematic work and stable outcomes."
     a_az := "Mən Elvinəm — Computer Engineering tələbəsiyəm; sistemli işləməyi və sabit nəticəni üstün tuturam."
     a_ru := "Я Эльвин — студент Computer Engineering; предпочитаю системную работу и стабильный результат."
     a_tr := "Ben Elvin’im — Computer Engineering öğrencisiyim; sistemli çalışmayı ve stabil sonucu tercih ederim."
     a_pl := "Jestem Elvin — student Computer Engineering; wolę pracę systematyczną i stabilne wyniki." }]

/-- Lookup `{"az":az,"en":en,"ru":ru,"tr":tr,"pl":pl}[lang]` of the semantic
stage (total, since the entry record carries all five languages). -/
def entryAnswer (e : SemEntry) (lang : Lang) : String :=
  match lang with
  | .az => e.a_az
  | .en => e.a_en
  | .ru => e.a_ru
  | .tr => e.a_tr
  | .pl => e.a_pl

/-- The module-level cache `_sem_vectors : Optional[List[List[float]]]`. -/
structure SemState where
  sem_vectors : Option (List (List ℝ))

/-- The embedding service `_embed` (a network call that may fail):
strings in, one vector per string out, or an error. -/
def Embed : Type :=
  List String → Except Unit (List (List ℝ))

/-- Python `sum(x*y for x, y in zip(a, b))`. -/
noncomputable def dotP (a b : List ℝ) : ℝ :=
  (List.zipWith (fun x y => x * y) a b).sum

/-- Python `sum(x*x for x in a)`. -/
noncomputable def sumSq (a : List ℝ) : ℝ :=
  (a.map (fun x => x * x)).sum

/-- Python `math.sqrt(sum(x*x for x in a))` — the Euclidean norm. -/
noncomputable def norm2 (a : List ℝ) : ℝ :=
  Real.sqrt (sumSq a)

/-- Function `_cos` from the source: cosine similarity with a zero-norm guard. -/
noncomputable def _cos (a b : List ℝ) : ℝ :=
  if norm2 a = 0 ∨ norm2 b = 0 then 0 else dotP a b / (norm2 a * norm2 b)

/-- Checked real division: `Except.error ()` models Python's
`ZeroDivisionError`. -/
noncomputable def pyDiv (x y : ℝ) : Except Unit ℝ :=
  if y = 0 then Except.error () else Except.ok (x / y)

/-- Function `_cos` with its division made explicit, to state that the zero-norm
guard makes the function division-safe. -/
noncomputable def cosChecked (a b : List ℝ) : Except Unit ℝ :=
  if norm2 a = 0 ∨ norm2 b = 0 then Except.ok 0
  else pyDiv (dotP a b) (norm2 a * norm2 b)

/-- Loop of Python's `max(range(len(scores)), key=lambda k: scores[k])`:
the champion index is replaced only on a strictly greater score, so ties
keep the earlier index. -/
noncomputable def pyArgmaxAux : List ℝ → ℝ → Nat → Nat → Nat
  | [], _, _, bi => bi
  | s :: rest, bv, i, bi =>
    if bv < s then pyArgmaxAux rest s (i + 1) i
    else pyArgmaxAux rest bv (i + 1) bi

/-- Python `max(range(len(scores)), key=lambda k: scores[k])`. -/
noncomputable def pyArgmax : List ℝ → Nat
  | [] => 0
  | s :: rest => pyArgmaxAux rest s 1 0

/-- The questions embedded by the index build:
`[q for q, _, _, _, _, _ in SEMANTIC_QA]`. -/
def semanticQuestions : List String :=
  SEMANTIC_QA.map (fun e => e.q_en)

/-- Function `ensure_semantic_index`: build the vector cache once; a failure of
the embedding service propagates (as an exception) and leaves the cache
unset. -/
def ensure_semantic_index (embed : Embed) (st : SemState) : Except Unit SemState :=
  match st.sem_vectors with
  | some _ => Except.ok st
  | none =>
    match embed semanticQuestions with
    | Except.ok vs => Except.ok { sem_vectors := some vs }
    | Except.error e => Except.error e

/-- The scoring and selection tail of `semantic_answer` (the code after
both `try/except` blocks): score every cached vector against the query
vector, take the arg-max, apply the 0.74 threshold and return the
matched entry's per-language answer.  This part runs outside any
exception handler, so `Except.error ()` models an uncaught runtime error
(an index out of range — unreachable for states produced by
`ensure_semantic_index`). -/
noncomputable def semantic_pick (st' : SemState) (vec : List ℝ)
    (vs : List (List ℝ)) (lang : Lang) : Except Unit (SemState × Option String) :=
  if vs.map (fun v => _cos vec v) = [] then Except.ok (st', none)
  else
    match (vs.map (fun v => _cos vec v)).get? (pyArgmax (vs.map (fun v => _cos vec v))) with
    | none => Except.error ()
    | some best =>
      if best < 0.74 then Except.ok (st', none)
      else
        match SEMANTIC_QA.get? (pyArgmax (vs.map (fun v => _cos vec v))) with
        | none => Except.error ()
        | some e => Except.ok (st', some (entryAnswer e lang))

/-- Function `semantic_answer` from the source.  The two `try/except` blocks
catch build and per-query embedding failures and return `none`; the
rest is `semantic_pick`. -/
noncomputable def semantic_answer (embed : Embed) (st : SemState) (q : String)
    (lang : Lang) : Except Unit (SemState × Option String) :=
  match ensure_semantic_index embed st with
  | Except.error _ => Except.ok (st, none)
  | Except.ok st' =>
    match embed [q] with
    | Except.error _ => Except.ok (st', none)
    | Except.ok vecs =>
      match vecs.head? with
      | none => Except.ok (st', none)
      | some vec =>
        match st'.sem_vectors with
        | none => Except.error ()
        | some vs => semantic_pick st' vec vs lang

/-! ## Generative fallback and router -/

/-- A role-tagged chat message (a `{"role": ..., "content": ...}` dict). -/
structure Turn where
  role : String
  content : String

/-- The chat completion service (`client.chat.completions.create` with
`model="gpt-4.1-mini"` and `temperature=0.25`, followed by extracting the
single reply text): messages in, reply text out. -/
def Llm : Type :=
  List Turn → String

/-- Function `build_system_prompt`: the `json.dumps` rendering of the identity
line, the persona facts, the style guide and the rules.  The JSON
serialization itself is abstracted; the payload is modelled as the
concatenation of its content fields, which no routed behavior inspects. -/
def build_system_prompt : String :=
  "You are ELVIN — the real person\x27s persona (first-person). " ++
  ELVIN.full_name ++ " " ++ ELVIN.birthday ++ " " ++ ELVIN.age ++ " " ++
  ELVIN.born_city ++ " " ++ ELVIN.current_city ++ " " ++ ELVIN.housing ++ " " ++
  ELVIN.spoken_langs ++ " " ++ ELVIN.family.mother ++ " " ++ ELVIN.family.father ++ " " ++
  ELVIN.family.brother ++ " " ++ ELVIN.family.sister ++ " " ++ ELVIN.love_about ++ " " ++
  ELVIN.email ++ " " ++ STYLE_GUIDE ++ " " ++
  "Use only provided facts and safe general knowledge. If something is unknown, say you are not sure. " ++
  "Answer in the user\x27s language. " ++
  "No bullet points. 1–3 sentences. Natural, human tone."

/-- One step of `re.sub(r"^[\-\•\*]\s*", "", l)`: strip a single leading
bullet marker and the whitespace after it. -/
def stripBullet (l : List Char) : List Char :=
  match l with
  | c :: rest =>
    if c = '-' ∨ c = '•' ∨ c = '*' then rest.dropWhile pyIsSpace else l
  | [] => []

/-- Python `str.splitlines()` (over the `\n`, `\r\n` and `\r` terminators the
modelled texts can contain). -/
def pySplitlines : List Char → List Char → List (List Char)
  | [], acc => if acc = [] then [] else [acc.reverse]
  | c :: rest, acc =>
    if c = Char.ofNat 10 then acc.reverse :: pySplitlines rest []
    else if c = Char.ofNat 13 then
      match rest with
      | d :: rest2 =>
        if d = Char.ofNat 10 then acc.reverse :: pySplitlines rest2 []
        else acc.reverse :: pySplitlines (d :: rest2) []
      | [] => [acc.reverse]
    else pySplitlines rest (c :: acc)
termination_by s _ => s.length

/-- Python `" ".join(lines)`. -/
def joinSpace : List (List Char) → List Char
  | [] => []
  | [l] => l
  | l :: rest => l ++ [' '] ++ joinSpace rest

/-- Python `re.sub(r"\s{2,}", " ", joined)`: collapse every run of two or more
whitespace characters to a single space (a lone whitespace character is
kept as is). -/
theorem dropWhile_length_le {α : Type} (p : α → Bool) (l : List α) :
    (l.dropWhile p).length ≤ l.length := by
  induction l with
  | nil => simp
  | cons a l ih =>
    by_cases h : p a
    · simp only [List.dropWhile_cons, h, if_true, List.length_cons]
      omega
    · simp [List.dropWhile_cons, h]

def collapseWs : List Char → List Char
  | [] => []
  | [c] => [c]
  | c :: d :: rest =>
    if pyIsSpace c ∧ pyIsSpace d then ' ' :: collapseWs (rest.dropWhile pyIsSpace)
    else c :: collapseWs (d :: rest)
termination_by l => l.length
decreasing_by
  · have := dropWhile_length_le pyIsSpace rest
    simp only [List.length_cons]
    omega
  · simp only [List.length_cons]
    omega

/-- Function `postprocess` from the source: kill bullets, join lines, collapse
whitespace. -/
def postprocess (text : String) : String :=
  let lines := (pySplitlines text.data []).filterMap (fun l =>
    let stripped := pyStrip l
    if stripped = [] then none else some (pyStrip (stripBullet l)))
  let joined := joinSpace lines
  { data := collapseWs joined }

/-- Python `history[-6:]`. -/
def lastSix (history : List Turn) : List Turn :=
  history.drop (history.length - 6)

/-- Function `llm_fallback` from the source: system prompt, the last six history
turns, then the user text with the language style hint appended after a
separator; the raw reply is stripped and postprocessed. -/
def llm_fallback (llm : Llm) (user_text : String) (lang : Lang)
    (history : List Turn) : String :=
  let messages := { role := "system", content := build_system_prompt } :: lastSix history
  let user_payload := user_text ++ "\n\n---\n" ++ style_hint_for_lang lang
  let txt := { data := pyStrip (llm (messages ++ [{ role := "user", content := user_payload }])).data : String }
  postprocess txt

/-- The semantic-then-generative tail of `answer` (everything after the
intent stage has produced a falsy value). -/
noncomputable def answer_from_sem (llm : Llm) (embed : Embed) (st : SemState)
    (q : String) (lang : Lang) (history : List Turn) :
    Except Unit (SemState × String × Bool × Lang) :=
  match semantic_answer embed st q lang with
  | Except.error e => Except.error e
  | Except.ok (st', some t) =>
    if t = "" then Except.ok (st', llm_fallback llm q lang history, false, lang)
    else Except.ok (st', t, true, lang)
  | Except.ok (st', none) =>
    Except.ok (st', llm_fallback llm q lang history, false, lang)

/-- Function `answer` from the source: detect the language, then intent matcher,
semantic matcher and generative fallback in order, short-circuiting on
the first truthy reply (`if det:` / `if sem:` are Python truthiness, so
an empty string would also fall through). -/
noncomputable def answer (llm : Llm) (embed : Embed) (now : Now) (st : SemState)
    (q : String) (history : List Turn) :
    Except Unit (SemState × String × Bool × Lang) :=
  let lang := detect_lang q
  match route_intent now q lang with
  | Except.error e => Except.error e
  | Except.ok (some s) =>
    if s = "" then answer_from_sem llm embed st q lang history
    else Except.ok (st, s, true, lang)
  | Except.ok none => answer_from_sem llm embed st q lang history

/-! ## Helper lemmas -/

theorem mem_dropWhile_of_not {p : Char → Bool} {c : Char} {l : List Char}
    (hmem : c ∈ l) (hc : p c = false) : c ∈ l.dropWhile p := by
  induction l with
  | nil => simp at hmem
  | cons a l ih =>
    by_cases ha : p a
    · rw [List.dropWhile_cons_of_pos ha]
      rcases List.mem_cons.mp hmem with h | h
      · subst h; rw [hc] at ha; simp at ha
      · exact ih h
    · rw [List.dropWhile_cons_of_neg (by simpa using ha)]
      exact hmem

theorem mem_pyStrip {c : Char} {l : List Char}
    (hmem : c ∈ l) (hc : pyIsSpace c = false) : c ∈ pyStrip l := by
  unfold pyStrip
  rw [List.mem_reverse]
  apply mem_dropWhile_of_not _ hc
  rw [List.mem_reverse]
  exact mem_dropWhile_of_not hmem hc

theorem append_ne_empty_left (a b : String) (h : a ≠ "") : a ++ b ≠ "" := by
  intro hab
  apply h
  have hdata : a.data ++ b.data = [] := congrArg String.data hab
  have ha : a.data = [] := (List.append_eq_nil.mp hdata).1
  cases a
  simp_all

/-! ## C6 — the final English interrogative-word scan is dead logic -/

/-- C6: the detector with the English interrogative-word scan and the
detector without it are extensionally equal — the scan's result never
alters the returned language (any unmatched Latin text defaults to
`en`). -/
theorem detect_lang_scan_dead (text : String) :
    detect_lang text = detect_lang_noscan text := by
  simp only [detect_lang, detect_lang_noscan, ite_self]

/-! ## C8 — cosine similarity is total and division-safe -/

/-- C8: `_cos` computes the dot product divided by the product of the
two Euclidean norms, and the zero-norm guard exactly covers the
zero-divisor case, so the explicit-division version never raises: it
returns `0` when either norm is zero and the true quotient otherwise. -/
theorem cos_division_safe (a b : List ℝ) :
    cosChecked a b = Except.ok (_cos a b) ∧
    _cos a b = (if norm2 a = 0 ∨ norm2 b = 0 then 0
      else dotP a b / (norm2 a * norm2 b)) := by
  refine ⟨?_, rfl⟩
  unfold cosChecked _cos pyDiv
  by_cases h : norm2 a = 0 ∨ norm2 b = 0
  · simp [h]
  · push_neg at h
    have hnz : norm2 a * norm2 b ≠ 0 := mul_ne_zero h.1 h.2
    simp [h.1, h.2, hnz]

/-! ## C5 — Cyrillic input routes to `ru` -/

/-- C5 counterexample: `є` (U+0454) is a character of the Unicode
Cyrillic block, yet `detect_lang` classifies the text `"є"` as `en`, not
`ru` — the code's class `[А-Яа-яЁё]` covers only the Russian alphabet,
not all of Cyrillic. -/
theorem detect_lang_cyrillic_counterexample :
    isCyrillicChar 'є' = true ∧ detect_lang "є" = Lang.en ∧ detect_lang "є" ≠ Lang.ru := by
  refine ⟨by decide, rfl, ?_⟩
  intro h
  exact absurd ((rfl : detect_lang "є" = Lang.en) ▸ h) (by decide)

/-- C5 amended: for every input containing at least one character of the
Russian alphabet class `[А-Яа-яЁё]` (U+0410–U+044F plus Ё/ё),
`detect_lang` returns `ru` regardless of the other characters. -/
theorem detect_lang_ru_alphabet (q : String) (c : Char)
    (hmem : c ∈ q.data) (hru : isRuCh c = true) : detect_lang q = Lang.ru := by
  have hns : pyIsSpace c = false := by
    unfold isRuCh at hru
    unfold pyIsSpace
    simp only [decide_eq_true_eq] at hru
    simp only [decide_eq_false_iff_not]
    omega
  have hmem' : c ∈ pyStrip q.data := mem_pyStrip hmem hns
  have hany : (pyStrip q.data).any isRuCh = true :=
    List.any_eq_true.mpr ⟨c, hmem', hru⟩
  unfold detect_lang
  simp [hany]

/-- C5 amended, witness: the single Russian letter `п`. -/
theorem detect_lang_ru_alphabet_witness : detect_lang "п" = Lang.ru :=
  detect_lang_ru_alphabet "п" 'п' (by decide) (by decide)

/-! ## C4 — the Polish age question -/

/-- C4 counterexample: for `"Cześć, ile masz lat?"` the intent matcher
does **not** match the `age` intent (no rule has a Polish trigger for
it): `route_intent` returns `none` instead of the Polish age reply. -/
theorem polish_age_counterexample :
    route_intent { year := 2025, month := 1, day := 1, hour := 0, minute := 0 }
      "Cześć, ile masz lat?" Lang.pl = Except.ok none := by
  rfl

/-- C4 amended: `detect_lang` does classify `"Cześć, ile masz lat?"` as
`pl` (Polish diacritic hit), but no intent rule matches it, so
`route_intent` returns `none` for every clock value and the request
falls past the intent stage. -/
theorem polish_age_detect_but_no_intent :
    detect_lang "Cześć, ile masz lat?" = Lang.pl ∧
    ∀ now : Now, route_intent now "Cześć, ile masz lat?" Lang.pl = Except.ok none := by
  constructor
  · rfl
  · intro now
    rfl

/-! ## C7 — every canned response set covers all five languages -/

theorem renderIntent_total (nm : IntentName) (now : Now) (lang : Lang) :
    ∃ s, renderIntent nm now lang = some s ∧ s ≠ "" := by
  cases nm <;> cases lang <;>
    refine ⟨_, rfl, ?_⟩ <;>
    first
      | decide
      | (repeat apply append_ne_empty_left
         decide)

/-- C7: for every intent rule of the ordered list and every language
code, whenever that rule is the one that fires, `route_intent` produces
a response string — no response-dictionary lookup can fail for a matched
intent. -/
theorem canned_responses_cover_all_langs (now : Now) (lang : Lang) :
    (∀ nm : IntentName, ∃ s, renderIntent nm now lang = some s) ∧
    (∀ (q : String) (nm : IntentName),
       firstIntentName (pyLower (pyStrip q.data)) = some nm →
       ∃ s, route_intent now q lang = Except.ok (some s)) := by
  constructor
  · intro nm
    obtain ⟨s, hs, _⟩ := renderIntent_total nm now lang
    exact ⟨s, hs⟩
  · intro q nm h
    obtain ⟨s, hs, _⟩ := renderIntent_total nm now lang
    refine ⟨s, ?_⟩
    simp only [route_intent, h, hs]

/-- C7 witness: the matched `age` rule on `"how old are you?"` renders
for Polish. -/
theorem canned_responses_cover_all_langs_witness :
    ∃ s, route_intent { year := 2025, month := 1, day := 1, hour := 0, minute := 0 }
      "how old are you?" Lang.pl = Except.ok (some s) :=
  (canned_responses_cover_all_langs
    { year := 2025, month := 1, day := 1, hour := 0, minute := 0 } Lang.pl).2
    "how old are you?" IntentName.age rfl

/-! ## C2 — the matched flag marks intent/semantic replies -/

theorem route_intent_some_ne_empty {now : Now} {q : String} {lang : Lang} {s : String}
    (h : route_intent now q lang = Except.ok (some s)) : s ≠ "" := by
  cases hf : firstIntentName (pyLower (pyStrip q.data)) with
  | none => simp [route_intent, hf] at h
  | some nm =>
    obtain ⟨s', hs', hne⟩ := renderIntent_total nm now lang
    simp only [route_intent, hf, hs', Except.ok.injEq, Option.some.injEq] at h
    rw [← h]
    exact hne

theorem sem_answers_ne_empty :
    ∀ e ∈ SEMANTIC_QA, ∀ lang : Lang, entryAnswer e lang ≠ "" := by
  intro e he lang
  fin_cases he <;> cases lang <;> decide

theorem semantic_pick_some_ne_empty {st' st'' : SemState} {vec : List ℝ}
    {vs : List (List ℝ)} {lang : Lang} {t : String}
    (h : semantic_pick st' vec vs lang = Except.ok (st'', some t)) : t ≠ "" := by
  unfold semantic_pick at h
  split at h
  · simp at h
  · split at h
    · simp at h
    · split at h
      · simp at h
      · split at h
        · simp at h
        · rename_i e he
          simp only [Except.ok.injEq, Prod.mk.injEq, Option.some.injEq] at h
          rw [← h.2]
          exact sem_answers_ne_empty e (List.get?_mem he) lang

theorem semantic_answer_some_ne_empty {embed : Embed} {st st' : SemState}
    {q : String} {lang : Lang} {t : String}
    (h : semantic_answer embed st q lang = Except.ok (st', some t)) : t ≠ "" := by
  unfold semantic_answer at h
  split at h
  · simp at h
  · split at h
    · simp at h
    · split at h
      · simp at h
      · split at h
        · simp at h
        · exact semantic_pick_some_ne_empty h

/-- C2: the reply and `matched` flag of `answer` — an intent hit is
returned with `matched = true`, otherwise a semantic hit is returned
with `matched = true`, otherwise the generative fallback's reply is
returned with `matched = false`. -/
theorem answer_matched_flag (llm : Llm) (embed : Embed) (now : Now)
    (st : SemState) (q : String) (history : List Turn) :
    (∀ s, route_intent now q (detect_lang q) = Except.ok (some s) →
       answer llm embed now st q history = Except.ok (st, s, true, detect_lang q)) ∧
    (∀ st' t, route_intent now q (detect_lang q) = Except.ok none →
       semantic_answer embed st q (detect_lang q) = Except.ok (st', some t) →
       answer llm embed now st q history = Except.ok (st', t, true, detect_lang q)) ∧
    (∀ st', route_intent now q (detect_lang q) = Except.ok none →
       semantic_answer embed st q (detect_lang q) = Except.ok (st', none) →
       answer llm embed now st q history =
         Except.ok (st', llm_fallback llm q (detect_lang q) history, false, detect_lang q)) := by
  refine ⟨?_, ?_, ?_⟩
  · intro s hroute
    have hne := route_intent_some_ne_empty hroute
    simp only [answer, hroute, if_neg hne]
  · intro st' t hroute hsem
    have hne := semantic_answer_some_ne_empty hsem
    simp only [answer, answer_from_sem, hroute, hsem, if_neg hne]
  · intro st' hroute hsem
    simp only [answer, answer_from_sem, hroute, hsem]

/-- C2 witness: the English age question takes the intent branch with
`matched = true`. -/
theorem answer_matched_flag_witness :
    answer (fun _ => "") (fun _ => Except.error ())
      { year := 2025, month := 1, day := 1, hour := 0, minute := 0 }
      { sem_vectors := none } "how old are you?" [] =
      Except.ok ({ sem_vectors := none },
        "I’m 23 years old; my birthday is 2002-05-28.", true, Lang.en) :=
  (answer_matched_flag (fun _ => "") (fun _ => Except.error ())
    { year := 2025, month := 1, day := 1, hour := 0, minute := 0 }
    { sem_vectors := none } "how old are you?" []).1
    "I’m 23 years old; my birthday is 2002-05-28." rfl

/-! ## C3 — embedding failures degrade to `none`, never propagate -/

/-- C3: a failing embedding service never surfaces an error from
`semantic_answer`: if the index build fails, the stage answers
`(st, none)`; if the build succeeded (state `st'`) but the per-query
embedding call fails, the stage answers `(st', none)`.  Either way the
result is an `Except.ok` carrying `none`, so the router falls through to
the generative stage. -/
theorem semantic_embed_failure (embed : Embed) (st : SemState) (q : String) (lang : Lang) :
    (st.sem_vectors = none → embed semanticQuestions = Except.error () →
       semantic_answer embed st q lang = Except.ok (st, none)) ∧
    (∀ st', ensure_semantic_index embed st = Except.ok st' →
       embed [q] = Except.error () →
       semantic_answer embed st q lang = Except.ok (st', none)) := by
  constructor
  · intro h1 h2
    simp only [semantic_answer, ensure_semantic_index, h1, h2]
  · intro st' h1 h2
    simp only [semantic_answer, h1, h2]

/-- C3 witness: an embedding service that fails exactly on the
single-query call — the index build succeeds, the per-query embedding
fails, and the stage returns `none` without error. -/
theorem semantic_embed_failure_witness :
    semantic_answer
      (fun ts => if ts.length = 1 then Except.error () else Except.ok [])
      { sem_vectors := none } "hi" Lang.en =
      Except.ok ({ sem_vectors := some [] }, none) :=
  (semantic_embed_failure
    (fun ts => if ts.length = 1 then Except.error () else Except.ok [])
    { sem_vectors := none } "hi" Lang.en).2
    { sem_vectors := some [] } rfl rfl

/-! ## C10 — a failed index build is not cached -/

/-- C10: when the cache is unset and the batch embedding call fails,
`semantic_answer` leaves the state exactly as it was (the cache stays
`none`), and a later call whose embedding service succeeds builds the
index from that same state — only a successful build populates the
cache. -/
theorem failed_build_not_cached (embed : Embed) (st : SemState) (q : String) (lang : Lang)
    (h1 : st.sem_vectors = none)
    (h2 : embed semanticQuestions = Except.error ()) :
    semantic_answer embed st q lang = Except.ok (st, none) ∧
    (∀ (embed₂ : Embed) (vs : List (List ℝ)),
       embed₂ semanticQuestions = Except.ok vs →
       ensure_semantic_index embed₂ st = Except.ok { sem_vectors := some vs }) := by
  constructor
  · simp only [semantic_answer, ensure_semantic_index, h1, h2]
  · intro embed₂ vs hv
    simp only [ensure_semantic_index, h1, hv]

/-- C10 witness: the failed build leaves the cache unset and a retry
with a working service builds it. -/
theorem failed_build_not_cached_witness :
    semantic_answer (fun _ => Except.error ()) { sem_vectors := none } "hi" Lang.en =
      Except.ok ({ sem_vectors := none }, none) ∧
    ensure_semantic_index (fun _ => Except.ok []) { sem_vectors := none } =
      Except.ok { sem_vectors := some [] } :=
  ⟨(failed_build_not_cached (fun _ => Except.error ())
      { sem_vectors := none } "hi" Lang.en rfl rfl).1,
   (failed_build_not_cached (fun _ => Except.error ())
      { sem_vectors := none } "hi" Lang.en rfl rfl).2
      (fun _ => Except.ok []) [] rfl⟩

/-! ## Arg-max lemmas: `max(range(len(scores)), key=...)` picks the
first index attaining the maximum -/

theorem pyArgmaxAux_all_le (l : List ℝ) : ∀ (bv : ℝ) (i bi : Nat),
    (∀ k, k < l.length → l.getD k 0 ≤ bv) → pyArgmaxAux l bv i bi = bi := by
  induction l with
  | nil => intro bv i bi _; rfl
  | cons s rest ih =>
    intro bv i bi h
    have h0 : s ≤ bv := by simpa using h 0 (by simp)
    simp only [pyArgmaxAux, if_neg (not_lt.mpr h0)]
    apply ih
    intro k hk
    have := h (k + 1) (by simp only [List.length_cons]; omega)
    simpa using this

theorem pyArgmaxAux_max (l : List ℝ) : ∀ (bv : ℝ) (i bi : Nat),
    (pyArgmaxAux l bv i bi = bi ∧ ∀ k, k < l.length → l.getD k 0 ≤ bv) ∨
    (∃ j, j < l.length ∧ pyArgmaxAux l bv i bi = i + j ∧ bv < l.getD j 0 ∧
      ∀ k, k < l.length → l.getD k 0 ≤ l.getD j 0) := by
  induction l with
  | nil =>
    intro bv i bi
    left
    exact ⟨rfl, by intro k hk; simp at hk⟩
  | cons s rest ih =>
    intro bv i bi
    by_cases hcase : bv < s
    · rcases ih s (i + 1) i with ⟨heq, hle⟩ | ⟨j, hj, heq, hgt, hle⟩
      · right
        refine ⟨0, by simp, ?_, by simpa using hcase, ?_⟩
        · simp only [pyArgmaxAux, if_pos hcase, heq]
          omega
        · intro k hk
          cases k with
          | zero => simp
          | succ k' =>
            have := hle k' (by simpa using hk)
            simpa using this
      · right
        refine ⟨j + 1, by simp only [List.length_cons]; omega, ?_, ?_, ?_⟩
        · simp only [pyArgmaxAux, if_pos hcase, heq]
          omega
        · have : bv < rest.getD j 0 := lt_trans hcase hgt
          simpa using this
        · intro k hk
          cases k with
          | zero => simpa using le_of_lt hgt
          | succ k' =>
            have := hle k' (by simpa using hk)
            simpa using this
    · rcases ih bv (i + 1) bi with ⟨heq, hle⟩ | ⟨j, hj, heq, hgt, hle⟩
      · left
        refine ⟨by simp only [pyArgmaxAux, if_neg hcase, heq], ?_⟩
        intro k hk
        cases k with
        | zero => simpa using not_lt.mp hcase
        | succ k' =>
          have := hle k' (by simpa using hk)
          simpa using this
      · right
        refine ⟨j + 1, by simp only [List.length_cons]; omega, ?_, ?_, ?_⟩
        · simp only [pyArgmaxAux, if_neg hcase, heq]
          omega
        · simpa using hgt
        · intro k hk
          cases k with
          | zero =>
            have : s ≤ rest.getD j 0 := le_of_lt (lt_of_le_of_lt (not_lt.mp hcase) hgt)
            simpa using this
          | succ k' =>
            have := hle k' (by simpa using hk)
            simpa using this

theorem pyArgmaxAux_first (l : List ℝ) : ∀ (bv : ℝ) (i bi j : Nat),
    j < l.length → bv < l.getD j 0 →
    (∀ k, k < l.length → l.getD k 0 ≤ l.getD j 0) →
    (∀ k, k < j → l.getD k 0 < l.getD j 0) →
    pyArgmaxAux l bv i bi = i + j := by
  induction l with
  | nil => intro bv i bi j hj; simp at hj
  | cons s rest ih =>
    intro bv i bi j hj hbv hmax hfirst
    cases j with
    | zero =>
      have hs : bv < s := by simpa using hbv
      simp only [pyArgmaxAux, if_pos hs]
      have heq : pyArgmaxAux rest s (i + 1) i = i := by
        apply pyArgmaxAux_all_le
        intro k hk
        have := hmax (k + 1) (by simp only [List.length_cons]; omega)
        simpa using this
      rw [heq]
      omega
    | succ j' =>
      have hj' : j' < rest.length := by simpa using hj
      have hsj : s < rest.getD j' 0 := by simpa using hfirst 0 (by omega)
      have hmax' : ∀ k, k < rest.length → rest.getD k 0 ≤ rest.getD j' 0 := by
        intro k hk
        have := hmax (k + 1) (by simp only [List.length_cons]; omega)
        simpa using this
      have hfirst' : ∀ k, k < j' → rest.getD k 0 < rest.getD j' 0 := by
        intro k hk
        have := hfirst (k + 1) (by omega)
        simpa using this
      by_cases hcase : bv < s
      · simp only [pyArgmaxAux, if_pos hcase]
        have := ih s (i + 1) i j' hj' hsj hmax' hfirst'
        rw [this]
        omega
      · simp only [pyArgmaxAux, if_neg hcase]
        have hbv' : bv < rest.getD j' 0 := by simpa using hbv
        have := ih bv (i + 1) bi j' hj' hbv' hmax' hfirst'
        rw [this]
        omega

theorem pyArgmax_spec (scores : List ℝ) (h : scores ≠ []) :
    pyArgmax scores < scores.length ∧
    ∀ k, k < scores.length → scores.getD k 0 ≤ scores.getD (pyArgmax scores) 0 := by
  cases scores with
  | nil => exact absurd rfl h
  | cons s rest =>
    simp only [pyArgmax]
    rcases pyArgmaxAux_max rest s 1 0 with ⟨heq, hle⟩ | ⟨j, hj, heq, hgt, hle⟩
    · rw [heq]
      refine ⟨by simp, ?_⟩
      intro k hk
      cases k with
      | zero => simp
      | succ k' =>
        have := hle k' (by simpa using hk)
        simpa using this
    · rw [heq]
      have h1j : (s :: rest).getD (1 + j) 0 = rest.getD j 0 := by
        have h' : 1 + j = j + 1 := by omega
        rw [h']
        simp
      refine ⟨by simp only [List.length_cons]; omega, ?_⟩
      intro k hk
      rw [h1j]
      cases k with
      | zero => simpa using le_of_lt hgt
      | succ k' =>
        have := hle k' (by simpa using hk)
        simpa using this

theorem pyArgmax_first_of (scores : List ℝ) (i : Nat) (hi : i < scores.length)
    (hmax : ∀ k, k < scores.length → scores.getD k 0 ≤ scores.getD i 0)
    (hfirst : ∀ k, k < i → scores.getD k 0 < scores.getD i 0) :
    pyArgmax scores = i := by
  cases scores with
  | nil => simp at hi
  | cons s rest =>
    cases i with
    | zero =>
      simp only [pyArgmax]
      apply pyArgmaxAux_all_le
      intro k hk
      have := hmax (k + 1) (by simp only [List.length_cons]; omega)
      simpa using this
    | succ i' =>
      simp only [pyArgmax]
      have hi' : i' < rest.length := by simpa using hi
      have hs : s < rest.getD i' 0 := by simpa using hfirst 0 (by omega)
      have hmax' : ∀ k, k < rest.length → rest.getD k 0 ≤ rest.getD i' 0 := by
        intro k hk
        have := hmax (k + 1) (by simp only [List.length_cons]; omega)
        simpa using this
      have hfirst' : ∀ k, k < i' → rest.getD k 0 < rest.getD i' 0 := by
        intro k hk
        have := hfirst (k + 1) (by omega)
        simpa using this
      have := pyArgmaxAux_first rest s 1 0 i' hi' hs hmax' hfirst'
      rw [this]
      omega

/-! ## C1/C9 — threshold and tie-breaking of the semantic stage -/

theorem semantic_answer_cached (embed : Embed) (st : SemState) (q : String)
    (lang : Lang) (vs : List (List ℝ)) (v : List ℝ) (vtl : List (List ℝ))
    (hcache : st.sem_vectors = some vs)
    (hemb : embed [q] = Except.ok (v :: vtl)) :
    semantic_answer embed st q lang = semantic_pick st v vs lang := by
  simp only [semantic_answer, ensure_semantic_index, hcache, hemb, List.head?]

theorem semantic_pick_spec (st' : SemState) (vec : List ℝ) (vs : List (List ℝ))
    (lang : Lang) (e : SemEntry) (hne : vs ≠ [])
    (hentry : SEMANTIC_QA.get? (pyArgmax (vs.map (fun v => _cos vec v))) = some e) :
    ((0.74 : ℝ) ≤ (vs.map (fun v => _cos vec v)).getD (pyArgmax (vs.map (fun v => _cos vec v))) 0 →
       semantic_pick st' vec vs lang = Except.ok (st', some (entryAnswer e lang))) ∧
    ((vs.map (fun v => _cos vec v)).getD (pyArgmax (vs.map (fun v => _cos vec v))) 0 < (0.74 : ℝ) →
       semantic_pick st' vec vs lang = Except.ok (st', none)) := by
  have hsne : vs.map (fun v => _cos vec v) ≠ [] := by
    intro hcontra
    exact hne (List.map_eq_nil.mp hcontra)
  have hlt : pyArgmax (vs.map (fun v => _cos vec v)) < (vs.map (fun v => _cos vec v)).length :=
    (pyArgmax_spec _ hsne).1
  have hget : (vs.map (fun v => _cos vec v)).get? (pyArgmax (vs.map (fun v => _cos vec v))) =
      some ((vs.map (fun v => _cos vec v)).getD (pyArgmax (vs.map (fun v => _cos vec v))) 0) := by
    rw [List.get?_eq_get hlt, List.getD_eq_get?, List.get?_eq_get hlt]
    rfl
  have key : semantic_pick st' vec vs lang =
      (if (vs.map (fun v => _cos vec v)).getD (pyArgmax (vs.map (fun v => _cos vec v))) 0 < (0.74 : ℝ)
       then Except.ok (st', none)
       else Except.ok (st', some (entryAnswer e lang))) := by
    simp only [semantic_pick, if_neg hsne, hget, hentry]
  constructor
  · intro h
    rw [key, if_neg (not_lt.mpr h)]
  · intro h
    rw [key, if_pos h]

/-- C1: the acceptance threshold is an inclusive lower bound.  With a
built index (`vs` cached) and a successful query embedding (vector
`v0`), the value the code compares against the threshold is the maximum
of all cosine scores; when it is at least `0.74` the stage returns the
arg-max entry's per-language answer, and when it is strictly below
`0.74` it returns `none`, in which case (when no intent rule fired) the
router falls through to the generative stage. -/
theorem semantic_threshold_inclusive (llm : Llm) (embed : Embed) (now : Now)
    (history : List Turn) (st : SemState) (q : String) (lang : Lang)
    (vs : List (List ℝ)) (v0 : List ℝ) (vtl : List (List ℝ)) (e : SemEntry)
    (hcache : st.sem_vectors = some vs)
    (hemb : embed [q] = Except.ok (v0 :: vtl))
    (hne : vs ≠ [])
    (hentry : SEMANTIC_QA.get? (pyArgmax (vs.map (fun w => _cos v0 w))) = some e) :
    (∀ x ∈ vs.map (fun w => _cos v0 w),
       x ≤ (vs.map (fun w => _cos v0 w)).getD (pyArgmax (vs.map (fun w => _cos v0 w))) 0) ∧
    ((0.74 : ℝ) ≤ (vs.map (fun w => _cos v0 w)).getD (pyArgmax (vs.map (fun w => _cos v0 w))) 0 →
       semantic_answer embed st q lang = Except.ok (st, some (entryAnswer e lang))) ∧
    ((vs.map (fun w => _cos v0 w)).getD (pyArgmax (vs.map (fun w => _cos v0 w))) 0 < (0.74 : ℝ) →
       semantic_answer embed st q lang = Except.ok (st, none) ∧
       (lang = detect_lang q → route_intent now q lang = Except.ok none →
          answer llm embed now st q history =
            Except.ok (st, llm_fallback llm q lang history, false, lang))) := by
  have hsne : vs.map (fun w => _cos v0 w) ≠ [] := by
    intro hcontra
    exact hne (List.map_eq_nil.mp hcontra)
  have hcast := semantic_answer_cached embed st q lang vs v0 vtl hcache hemb
  have hspec := semantic_pick_spec st v0 vs lang e hne hentry
  refine ⟨?_, ?_, ?_⟩
  · intro x hx
    obtain ⟨⟨n, hn⟩, rfl⟩ := List.mem_iff_get.mp hx
    have hgD : (vs.map (fun w => _cos v0 w)).get ⟨n, hn⟩ =
        (vs.map (fun w => _cos v0 w)).getD n 0 := by
      rw [List.getD_eq_get?, List.get?_eq_get hn]
      rfl
    rw [hgD]
    exact (pyArgmax_spec _ hsne).2 n hn
  · intro h
    rw [hcast]
    exact hspec.1 h
  · intro h
    have hsem : semantic_answer embed st q lang = Except.ok (st, none) := by
      rw [hcast]
      exact hspec.2 h
    refine ⟨hsem, ?_⟩
    intro hlang hroute
    subst hlang
    simp only [answer, hroute, answer_from_sem, hsem]

theorem cos_self_one : _cos [(1 : ℝ)] [(1 : ℝ)] = 1 := by
  have hs : sumSq [(1 : ℝ)] = 1 := by
    simp [sumSq]
  have hn : norm2 [(1 : ℝ)] = 1 := by
    rw [norm2, hs, Real.sqrt_one]
  have hd : dotP [(1 : ℝ)] [(1 : ℝ)] = 1 := by
    simp [dotP]
  rw [_cos, hn, hd]
  norm_num

/-- C1 witness: a cached one-vector index and a query embedding equal to
it give cosine score `1 ≥ 0.74`, so the stage answers with the first
entry's English answer. -/
theorem semantic_threshold_inclusive_witness :
    semantic_answer (fun _ => Except.ok [[(1 : ℝ)]])
      { sem_vectors := some [[(1 : ℝ)]] } "hello" Lang.en =
      Except.ok ({ sem_vectors := some [[(1 : ℝ)]] },
        some ("I live in Warsaw. " ++ ELVIN.housing)) := by
  have hth : (0.74 : ℝ) ≤
      ([[(1 : ℝ)]].map (fun w => _cos [(1 : ℝ)] w)).getD
        (pyArgmax ([[(1 : ℝ)]].map (fun w => _cos [(1 : ℝ)] w))) 0 := by
    simp only [List.map_cons, List.map_nil, pyArgmax, pyArgmaxAux,
      List.getD_cons_zero, cos_self_one]
    norm_num
  exact (semantic_threshold_inclusive (fun _ => "") (fun _ => Except.ok [[(1 : ℝ)]])
    { year := 2025, month := 1, day := 1, hour := 0, minute := 0 } []
    { sem_vectors := some [[(1 : ℝ)]] } "hello" Lang.en
    [[(1 : ℝ)]] [(1 : ℝ)] [] _ rfl rfl (by simp) rfl).2.1 hth

/-- C9: ties in the cosine scores go to the earliest entry.  If index
`i` attains the maximal score, every earlier index scores strictly
lower, some later index `j` ties with it, and the maximum clears the
threshold, then the stage answers with entry `i`'s per-language
answer — the smallest index in the fixed `SEMANTIC_QA` order. -/
theorem semantic_tie_break (embed : Embed) (st : SemState) (q : String) (lang : Lang)
    (vs : List (List ℝ)) (v0 : List ℝ) (vtl : List (List ℝ)) (e : SemEntry) (i j : Nat)
    (hcache : st.sem_vectors = some vs)
    (hemb : embed [q] = Except.ok (v0 :: vtl))
    (hij : i < j)
    (hj : j < (vs.map (fun w => _cos v0 w)).length)
    (hmax : ∀ k, k < (vs.map (fun w => _cos v0 w)).length →
       (vs.map (fun w => _cos v0 w)).getD k 0 ≤ (vs.map (fun w => _cos v0 w)).getD i 0)
    (htie : (vs.map (fun w => _cos v0 w)).getD j 0 = (vs.map (fun w => _cos v0 w)).getD i 0)
    (hfirst : ∀ k, k < i →
       (vs.map (fun w => _cos v0 w)).getD k 0 < (vs.map (fun w => _cos v0 w)).getD i 0)
    (hth : (0.74 : ℝ) ≤ (vs.map (fun w => _cos v0 w)).getD i 0)
    (hentry : SEMANTIC_QA.get? i = some e) :
    semantic_answer embed st q lang = Except.ok (st, some (entryAnswer e lang)) := by
  have hi : i < (vs.map (fun w => _cos v0 w)).length := lt_trans hij hj
  have hargmax : pyArgmax (vs.map (fun w => _cos v0 w)) = i :=
    pyArgmax_first_of _ i hi hmax hfirst
  have hne : vs ≠ [] := by
    intro hvs
    subst hvs
    simp at hj
  rw [semantic_answer_cached embed st q lang vs v0 vtl hcache hemb]
  have hspec := semantic_pick_spec st v0 vs lang e hne (by rw [hargmax]; exact hentry)
  exact hspec.1 (by rw [hargmax]; exact hth)

/-- C9 witness: two identical cached vectors tie with score `1`; the
stage answers with entry `0`'s Azerbaijani answer, not entry `1`'s. -/
theorem semantic_tie_break_witness :
    semantic_answer (fun _ => Except.ok [[(1 : ℝ)]])
      { sem_vectors := some [[(1 : ℝ)], [(1 : ℝ)]] } "hey" Lang.az =
      Except.ok ({ sem_vectors := some [[(1 : ℝ)], [(1 : ℝ)]] },
        some ("Varşavada yaşayıram, " ++ ELVIN.housing)) := by
  have hmax : ∀ k, k < ([[(1 : ℝ)], [(1 : ℝ)]].map (fun w => _cos [(1 : ℝ)] w)).length →
      ([[(1 : ℝ)], [(1 : ℝ)]].map (fun w => _cos [(1 : ℝ)] w)).getD k 0 ≤
      ([[(1 : ℝ)], [(1 : ℝ)]].map (fun w => _cos [(1 : ℝ)] w)).getD 0 0 := by
    intro k hk
    simp only [List.length_map, List.length_cons, List.length_nil] at hk
    interval_cases k <;> exact le_refl _
  have hth : (0.74 : ℝ) ≤ ([[(1 : ℝ)], [(1 : ℝ)]].map (fun w => _cos [(1 : ℝ)] w)).getD 0 0 := by
    simp only [List.map_cons, List.map_nil, List.getD_cons_zero, cos_self_one]
    norm_num
  exact semantic_tie_break (fun _ => Except.ok [[(1 : ℝ)]])
    { sem_vectors := some [[(1 : ℝ)], [(1 : ℝ)]] } "hey" Lang.az
    [[(1 : ℝ)], [(1 : ℝ)]] [(1 : ℝ)] [] _ 0 1 rfl rfl (by omega) (by simp)
    hmax rfl (by intro k hk; omega) hth rfl
